import Mathlib

/-!
Verification of the SEM6000 driver session layer (sem6000.py, message.py).

The embedding models:
  * the message taxonomy of message.py as an inductive `Notification` plus
    `Scheduler` / `SchedulerEntry` structures and the `SchedulerWeekday` enum;
  * the frame reassembler `SEM6000Delegate` (fragment buffer,
    `has_final_raw_notification`, `consume_notification`) with bytes as
    `List Nat` and the external codec `parse` as an explicit parameter;
  * the per-operation validation steps of the `SEM6000` driver
    (`authorize`, `request_settings`, `set_power_limit`, `set_prices`,
    `set_reduced_period`, `set_timer`) as functions of the decoded
    notification obtained from the exchange;
  * the pagination engine `request_scheduler`, parameterised by an oracle
    `device : Nat → Notification` giving the decoded notification produced
    by the exchange for each requested page number, and returning both the
    list of issued page numbers and the outcome.

Python exceptions are modelled by `PyError`; Python attribute lookup on a
`SchedulerRequestedNotification` object is modelled by `getattr_entries`,
which succeeds exactly on the attribute names assigned in
`SchedulerRequestedNotification.__init__` (message.py lines 304-305).
-/

/-- Python exceptions raised by the modelled code: `raise Exception(msg)`,
`AttributeError` from a failed attribute lookup, and `ValueError` from an
invalid enum value (`SchedulerWeekday(v)`). -/
inductive PyError where
  | exception (msg : String)
  | attributeError (attr : String)
  | valueError (value : Int)
deriving DecidableEq

/-- message.py lines 243-250: `class SchedulerWeekday(enum.Enum)` with
members SUNDAY=0 .. SATURDAY=6. -/
inductive SchedulerWeekday where
  | SUNDAY
  | MONDAY
  | TUESDAY
  | WEDNESDAY
  | THURSDAY
  | FRIDAY
  | SATURDAY
deriving DecidableEq

/-- The integer value of each `SchedulerWeekday` enum member. -/
def SchedulerWeekday.value : SchedulerWeekday → Nat
  | .SUNDAY => 0
  | .MONDAY => 1
  | .TUESDAY => 2
  | .WEDNESDAY => 3
  | .THURSDAY => 4
  | .FRIDAY => 5
  | .SATURDAY => 6

/-- `SchedulerWeekday(v)` in Python: the enum member whose value is `v`,
raising `ValueError` when `v` is not a member value. -/
def SchedulerWeekday.ofValue (v : Int) : Except PyError SchedulerWeekday :=
  if v = 0 then .ok .SUNDAY
  else if v = 1 then .ok .MONDAY
  else if v = 2 then .ok .TUESDAY
  else if v = 3 then .ok .WEDNESDAY
  else if v = 4 then .ok .THURSDAY
  else if v = 5 then .ok .FRIDAY
  else if v = 6 then .ok .SATURDAY
  else .error (.valueError v)

/-- message.py lines 253-270: the `Scheduler` record after a successful
`__init__` (all weekday list elements converted to `SchedulerWeekday`). -/
structure Scheduler where
  is_active : Bool
  is_action_turn_on : Bool
  repeat_on_weekdays : List SchedulerWeekday
  year : Nat
  month : Nat
  day : Nat
  hour : Nat
  minute : Nat
deriving DecidableEq

/-- message.py lines 254-270: `Scheduler.__init__` called with a list of
integer weekday values. Each integer element is converted with
`SchedulerWeekday(weekday)`, which raises `ValueError` for a non-member
value; the subsequent `assert isinstance(weekday, SchedulerWeekday)` loop
always passes once conversion succeeded. -/
def Scheduler.init (is_active : Bool) (is_action_turn_on : Bool)
    (repeat_on_weekdays : List Int) (year : Nat) (month : Nat) (day : Nat)
    (hour : Nat) (minute : Nat) : Except PyError Scheduler := do
  let ws ← repeat_on_weekdays.mapM SchedulerWeekday.ofValue
  return ⟨is_active, is_action_turn_on, ws, year, month, day, hour, minute⟩

/-- message.py lines 287-296: `SchedulerEntry`. -/
structure SchedulerEntry where
  slot_id : Nat
  scheduler : Scheduler
deriving DecidableEq

/-- The closed set of notification variants of message.py. Confirmation
variants carry `was_successful`; data-bearing variants carry their
payload fields. -/
inductive Notification where
  | authorization (was_successful : Bool)
  | changePin (was_successful : Bool)
  | resetPin (was_successful : Bool)
  | powerSwitch (was_successful : Bool)
  | ledSwitch (was_successful : Bool)
  | synchronizeDateAndTime (was_successful : Bool)
  | requestedSettings (is_reduced_mode_active : Bool) (normal_price_in_cent : Nat)
      (reduced_price_in_cent : Nat) (reduced_mode_start_time_in_minutes : Nat)
      (reduced_mode_end_time_in_minutes : Nat) (is_led_active : Bool)
      (power_limit_in_watt : Nat)
  | powerLimitSet (was_successful : Bool)
  | pricesSet (was_successful : Bool)
  | reducedPeriodSet (was_successful : Bool)
  | requestedTimerStatus (is_timer_running : Bool) (is_action_turn_on : Bool)
      (target_second : Nat) (target_minute : Nat) (target_hour : Nat)
      (target_day : Nat) (target_month : Nat) (target_year : Nat)
      (original_timer_length_in_seconds : Nat)
  | timerSet (was_successful : Bool)
  | schedulerRequested (number_of_schedulers : Nat)
      (scheduler_entries : List SchedulerEntry)
  | schedulerSet (was_successful : Bool)
deriving DecidableEq

/-- `isinstance(n, AuthorizationNotification)`. -/
def is_authorization : Notification → Bool
  | .authorization _ => true
  | _ => false

/-- `isinstance(n, RequestedSettingsNotification)`. -/
def is_requested_settings : Notification → Bool
  | .requestedSettings _ _ _ _ _ _ _ => true
  | _ => false

/-- `isinstance(n, PowerLimitSetNotification)`. -/
def is_power_limit_set : Notification → Bool
  | .powerLimitSet _ => true
  | _ => false

/-- `isinstance(n, PricesSetNotification)`. -/
def is_prices_set : Notification → Bool
  | .pricesSet _ => true
  | _ => false

/-- `isinstance(n, ReducedPeriodSetNotification)`. -/
def is_reduced_period_set : Notification → Bool
  | .reducedPeriodSet _ => true
  | _ => false

/-- `isinstance(n, TimerSetNotification)`. -/
def is_timer_set : Notification → Bool
  | .timerSet _ => true
  | _ => false

/-- `isinstance(n, SchedulerRequestedNotification)`. -/
def is_scheduler_requested : Notification → Bool
  | .schedulerRequested _ _ => true
  | _ => false

/-- Python attribute lookup, on a `SchedulerRequestedNotification` object,
of an attribute expected to hold a list of scheduler entries.
`SchedulerRequestedNotification.__init__` (message.py lines 299-305)
assigns exactly the instance attributes `number_of_schedulers` and
`scheduler_entries`; looking up any other attribute name raises
`AttributeError`. -/
def getattr_entries (n : Notification) (attr : String) :
    Except PyError (List SchedulerEntry) :=
  match n, attr with
  | .schedulerRequested _ es, "scheduler_entries" => .ok es
  | _, a => .error (.attributeError a)

/-- Replace the `scheduler_entries` list of a scheduler-page object
(the effect `list.extend` would have on the stored list). -/
def set_entries : Notification → List SchedulerEntry → Notification
  | .schedulerRequested c _, es => .schedulerRequested c es
  | n, _ => n

/-- sem6000.py lines 13-26: the delegate's state is its ordered buffer of
raw notification fragments (bytes modelled as `List Nat`). -/
structure SEM6000Delegate where
  raw_notifications : List (List Nat)
deriving DecidableEq

/-- sem6000.py lines 28-37: `has_final_raw_notification` — false on an
empty buffer; false when the most recently pushed fragment is shorter
than two bytes; otherwise compares the fragment's last two bytes
(`last_notification[-2:]`) with the sentinel `b'\xff\xff'`. -/
def has_final_raw_notification (d : SEM6000Delegate) : Bool :=
  match d.raw_notifications.getLast? with
  | none => false
  | some last_n =>
      if last_n.length < 2 then false
      else decide (last_n.drop (last_n.length - 2) = [255, 255])

/-- sem6000.py lines 39-64: `consume_notification`. The concatenation
`data` of all buffered fragments, in receipt order, is built first; if no
final raw notification is present, `Exception("Incomplete notification
data")` is raised; otherwise the external codec parses `data` (a parse
failure is re-raised). Only after a successful parse is the buffer
emptied (the `while ... pop` loop); on any raised exception the buffer is
left untouched. The returned pair is (outcome, delegate state after the
call). -/
def consume_notification (parse : List Nat → Except String Notification)
    (d : SEM6000Delegate) : Except PyError Notification × SEM6000Delegate :=
  let data := d.raw_notifications.flatten
  if has_final_raw_notification d then
    match parse data with
    | .ok n => (.ok n, ⟨[]⟩)
    | .error e => (.error (.exception e), d)
  else
    (.error (.exception "Incomplete notification data"), d)

/-- sem6000.py lines 120-128: the validation step of `authorize`, as a
function of the decoded notification obtained from the exchange. Raises
`Exception("Authentication failed")` unless the notification is an
`AuthorizationNotification` with `was_successful` true. -/
def authorize (n : Notification) : Except PyError Notification :=
  match n with
  | .authorization was_successful =>
      if was_successful then .ok (.authorization was_successful)
      else .error (.exception "Authentication failed")
  | _ => .error (.exception "Authentication failed")

/-- sem6000.py lines 202-210: the validation step of `request_settings`.
Raises unless the decoded notification is a
`RequestedSettingsNotification`; no success flag is inspected. -/
def request_settings (n : Notification) : Except PyError Notification :=
  if is_requested_settings n then .ok n
  else .error (.exception "Request settings failed")

/-- sem6000.py lines 212-220: the validation step of `set_power_limit`.
Raises only on a variant mismatch; `was_successful` is not inspected. -/
def set_power_limit (n : Notification) : Except PyError Notification :=
  if is_power_limit_set n then .ok n
  else .error (.exception "Set power limit failed")

/-- sem6000.py lines 222-230: the validation step of `set_prices`.
Raises only on a variant mismatch; `was_successful` is not inspected. -/
def set_prices (n : Notification) : Except PyError Notification :=
  if is_prices_set n then .ok n
  else .error (.exception "Set prices failed")

/-- sem6000.py lines 232-246: the validation step of `set_reduced_period`.
Raises only on a variant mismatch; `was_successful` is not inspected. -/
def set_reduced_period (n : Notification) : Except PyError Notification :=
  if is_reduced_period_set n then .ok n
  else .error (.exception "Set reduced period failed")

/-- sem6000.py lines 258-271: the validation step of `set_timer`.
Raises only on a variant mismatch; `was_successful` is not inspected. -/
def set_timer (n : Notification) : Except PyError Notification :=
  if is_timer_set n then .ok n
  else .error (.exception "Set timer failed")

/-- Python `str.lower()`, character by character (ASCII case mapping,
which covers every accepted literal). -/
def str_lower (s : String) : String := ⟨s.data.map Char.toLower⟩

/-- sem6000.py lines 306-316: `_parse_boolean`. Starting from `False`,
each of three `if` statements compares the lowercased string form of the
argument against one accepted literal and sets the result to `True` on a
match. -/
def parse_boolean (boolean_string : String) : Bool :=
  let b0 := false
  let b1 := if str_lower boolean_string = "true" then true else b0
  let b2 := if str_lower boolean_string = "on" then true else b1
  if str_lower boolean_string = "1" then true else b2

/-- sem6000.py lines 282-290: the `for page_number in range(1,
max_page_number+1)` loop of `request_scheduler`. For each remaining page
number, issue the page request and obtain the decoded notification
(`device p`); raise `Exception("Request scheduler 2nd page failed")` on a
variant mismatch; otherwise evaluate
`notification.schedulers.extend(further_notification.schedulers)`: the
lookup of attribute `schedulers` on `notification` is evaluated first,
then the lookup on `further_notification`, then the extension of the
stored list. Returns the issued page numbers and the outcome. -/
def request_scheduler_go (device : Nat → Notification) (notif : Notification)
    (issued : List Nat) : List Nat → List Nat × Except PyError Notification
  | [] => (issued, .ok notif)
  | p :: rest =>
      let issued' := issued ++ [p]
      let further := device p
      if is_scheduler_requested further then
        match getattr_entries notif "schedulers" with
        | .error e => (issued', .error e)
        | .ok base =>
            match getattr_entries further "schedulers" with
            | .error e => (issued', .error e)
            | .ok more =>
                request_scheduler_go device (set_entries notif (base ++ more))
                  issued' rest
      else
        (issued', .error (.exception "Request scheduler 2nd page failed"))

/-- sem6000.py lines 273-292: `request_scheduler`. Issues the page-0
request; raises `Exception("Request scheduler 1st page failed")` on a
variant mismatch; otherwise computes `max_page_number =
number_of_schedulers // 4` and runs the page loop over pages
`1 .. max_page_number` inclusive. `device p` is the decoded notification
produced by the exchange for the request of page `p`. -/
def request_scheduler (device : Nat → Notification) :
    List Nat × Except PyError Notification :=
  match device 0 with
  | .schedulerRequested count entries =>
      request_scheduler_go device (.schedulerRequested count entries) [0]
        (List.range' 1 (count / 4))
  | _ => ([0], .error (.exception "Request scheduler 1st page failed"))

/-- A concrete scheduler used to build concrete scheduler pages. -/
def sample_scheduler : Scheduler := ⟨true, true, [], 21, 1, 1, 10, 30⟩

/-- A concrete scheduler entry in slot `i`. -/
def sample_entry (i : Nat) : SchedulerEntry := ⟨i, sample_scheduler⟩

/-- A device whose first-page response reports `total_count = 4` with four
entries and whose later pages are well-formed scheduler pages with no
further entries. -/
def dev_four : Nat → Notification
  | 0 => .schedulerRequested 4
      [sample_entry 0, sample_entry 1, sample_entry 2, sample_entry 3]
  | _ + 1 => .schedulerRequested 4 []

/-- A device whose first-page response reports `total_count = 8` and whose
every page response is a well-formed scheduler page. -/
def dev_eight : Nat → Notification
  | 0 => .schedulerRequested 8
      [sample_entry 0, sample_entry 1, sample_entry 2, sample_entry 3]
  | _ + 1 => .schedulerRequested 8
      [sample_entry 4, sample_entry 5, sample_entry 6, sample_entry 7]

/-- A concrete codec that accepts every frame, for instantiating the
delegate theorems. -/
def parse_stub : List Nat → Except String Notification :=
  fun _ => .ok (.authorization true)

/-- The attribute name assigned by `SchedulerRequestedNotification.__init__`
does resolve: looking up `scheduler_entries` returns the stored list. -/
theorem getattr_entries_scheduler_entries (c : Nat) (es : List SchedulerEntry) :
    getattr_entries (.schedulerRequested c es) "scheduler_entries" = .ok es := rfl

/-- Claim C3: `has_final_raw_notification` returns true iff at least one
fragment has been pushed and the final two bytes of the most recently
pushed fragment equal the sentinel 0xFF 0xFF; it returns false on an
empty buffer, and a most-recent fragment shorter than two bytes never
completes a frame. -/
theorem has_final_raw_notification_spec (d : SEM6000Delegate) :
    (has_final_raw_notification d = true ↔
      ∃ l, d.raw_notifications.getLast? = some l ∧ 2 ≤ l.length ∧
        l.drop (l.length - 2) = [255, 255]) ∧
    (d.raw_notifications = [] → has_final_raw_notification d = false) ∧
    (∀ l, d.raw_notifications.getLast? = some l → l.length < 2 →
      has_final_raw_notification d = false) := by
  refine ⟨?_, ?_, ?_⟩
  · unfold has_final_raw_notification
    cases h : d.raw_notifications.getLast? with
    | none => simp
    | some l =>
        by_cases hl : l.length < 2
        · simp only [if_pos hl]
          simp
          rintro h2 -
          omega
        · simp only [if_neg hl]
          simp
          intro _
          omega
  · intro h
    unfold has_final_raw_notification
    rw [h]
    simp
  · intro l hl hlen
    unfold has_final_raw_notification
    rw [hl]
    simp [hlen]

/-- Witness for C3 at the concrete one-fragment buffer `[[1]]`, whose most
recent fragment is shorter than two bytes. -/
theorem has_final_raw_notification_spec_witness :
    ([[1]] : List (List Nat)).getLast? = some [1] ∧
    has_final_raw_notification ⟨[[1]]⟩ = false :=
  ⟨rfl, (has_final_raw_notification_spec ⟨[[1]]⟩).2.2 [1] rfl (by decide)⟩

/-- Claim C4: `consume_notification` fails with the incomplete-frame error
whenever `has_final_raw_notification` is false; when a final raw
notification is present and the codec parses the concatenation of all
buffered fragments, in receipt order, it returns the parsed notification
and clears the buffer, so the frame is consumed exactly once. -/
theorem consume_notification_spec (parse : List Nat → Except String Notification)
    (d : SEM6000Delegate) :
    (has_final_raw_notification d = false →
      consume_notification parse d =
        (.error (.exception "Incomplete notification data"), d)) ∧
    (∀ n, has_final_raw_notification d = true →
      parse d.raw_notifications.flatten = .ok n →
      consume_notification parse d = (.ok n, ⟨[]⟩)) := by
  constructor
  · intro h
    simp [consume_notification, h]
  · intro n h hp
    simp [consume_notification, h, hp]

/-- Witness for C4: a frame split into two fragments, the second ending in
the sentinel, is consumed and the buffer is cleared. -/
theorem consume_notification_spec_witness :
    has_final_raw_notification ⟨[[12], [255, 255]]⟩ = true ∧
    consume_notification parse_stub ⟨[[12], [255, 255]]⟩ =
      (.ok (.authorization true), ⟨[]⟩) :=
  ⟨by decide,
   (consume_notification_spec parse_stub ⟨[[12], [255, 255]]⟩).2
     (.authorization true) (by decide) rfl⟩

/-- Claim C10: `consume_notification` clears the fragment buffer only
after a successful parse: whenever it raises — for an incomplete frame or
a codec parse failure — the delegate's fragment buffer is unchanged. -/
theorem consume_notification_preserves_buffer_on_error
    (parse : List Nat → Except String Notification) (d : SEM6000Delegate)
    (e : PyError) (h : (consume_notification parse d).1 = .error e) :
    (consume_notification parse d).2 = d := by
  unfold consume_notification at h ⊢
  by_cases hf : has_final_raw_notification d
  · simp only [if_pos hf] at h ⊢
    cases hp : parse d.raw_notifications.flatten with
    | ok n => simp [hp] at h
    | error s => simp [hp]
  · simp [if_neg hf]

/-- Witness for C10: calling `consume_notification` on an incomplete
buffer raises and leaves the fragment in the buffer. -/
theorem consume_notification_preserves_buffer_on_error_witness :
    (consume_notification parse_stub ⟨[[1]]⟩).1 =
      .error (.exception "Incomplete notification data") ∧
    (consume_notification parse_stub ⟨[[1]]⟩).2 = ⟨[[1]]⟩ :=
  ⟨rfl,
   consume_notification_preserves_buffer_on_error parse_stub ⟨[[1]]⟩
     (.exception "Incomplete notification data") rfl⟩

/-- Claim C5: an `authorize` exchange whose decoded notification is an
authorization confirmation carrying `was_successful = false` raises the
authentication-failure error and never returns a success value; any value
returned by `authorize` is an authorization confirmation with
`was_successful = true`. -/
theorem authorize_spec :
    authorize (.authorization false) =
      .error (.exception "Authentication failed") ∧
    ∀ n r, authorize n = .ok r → r = .authorization true := by
  constructor
  · rfl
  · intro n r h
    cases n with
    | authorization b =>
        cases b with
        | false => simp [authorize] at h
        | true =>
            simp [authorize] at h
            simp [h]
    | changePin b => simp [authorize] at h
    | resetPin b => simp [authorize] at h
    | powerSwitch b => simp [authorize] at h
    | ledSwitch b => simp [authorize] at h
    | synchronizeDateAndTime b => simp [authorize] at h
    | requestedSettings a b c dd ee f g => simp [authorize] at h
    | powerLimitSet b => simp [authorize] at h
    | pricesSet b => simp [authorize] at h
    | reducedPeriodSet b => simp [authorize] at h
    | requestedTimerStatus a b c dd ee f g i j => simp [authorize] at h
    | timerSet b => simp [authorize] at h
    | schedulerRequested c es => simp [authorize] at h
    | schedulerSet b => simp [authorize] at h

/-- Witness for C5: the theorem applied at the successful authorization
confirmation. -/
theorem authorize_spec_witness :
    authorize (.authorization true) = .ok (.authorization true) ∧
    (Notification.authorization true) = .authorization true :=
  ⟨rfl, authorize_spec.2 (.authorization true) (.authorization true) rfl⟩

/-- Claim C6: if the frame received during a `request_settings` exchange
decodes to any notification variant other than the settings snapshot —
for example a power-switch confirmation — `request_settings` raises
rather than returning the wrong-variant value, and any value it returns
is a settings snapshot. -/
theorem request_settings_spec :
    (∀ n, is_requested_settings n = false →
      request_settings n = .error (.exception "Request settings failed")) ∧
    (∀ n r, request_settings n = .ok r → is_requested_settings r = true) ∧
    request_settings (.powerSwitch true) =
      .error (.exception "Request settings failed") := by
  refine ⟨?_, ?_, rfl⟩
  · intro n h
    simp [request_settings, h]
  · intro n r h
    by_cases hs : is_requested_settings n = true
    · simp [request_settings, hs] at h
      subst h
      exact hs
    · simp [request_settings, hs] at h

/-- Witness for C6: a LED-switch confirmation received during a
`request_settings` exchange is rejected. -/
theorem request_settings_spec_witness :
    is_requested_settings (.ledSwitch true) = false ∧
    request_settings (.ledSwitch true) =
      .error (.exception "Request settings failed") :=
  ⟨rfl, request_settings_spec.1 (.ledSwitch true) rfl⟩

/-- Claim C7: for `set_power_limit`, `set_prices`, `set_reduced_period`
and `set_timer`, variant mismatch is the sole failure signal: a decoded
notification of the expected confirmation variant is returned even when
its `was_successful` flag is false, and the operation raises exactly when
the decoded variant differs from the expected one. -/
theorem set_operations_variant_mismatch_sole_failure :
    (∀ b, set_power_limit (.powerLimitSet b) = .ok (.powerLimitSet b)) ∧
    (∀ b, set_prices (.pricesSet b) = .ok (.pricesSet b)) ∧
    (∀ b, set_reduced_period (.reducedPeriodSet b) = .ok (.reducedPeriodSet b)) ∧
    (∀ b, set_timer (.timerSet b) = .ok (.timerSet b)) ∧
    (∀ n, is_power_limit_set n = false →
      set_power_limit n = .error (.exception "Set power limit failed")) ∧
    (∀ n, is_prices_set n = false →
      set_prices n = .error (.exception "Set prices failed")) ∧
    (∀ n, is_reduced_period_set n = false →
      set_reduced_period n = .error (.exception "Set reduced period failed")) ∧
    (∀ n, is_timer_set n = false →
      set_timer n = .error (.exception "Set timer failed")) := by
  refine ⟨fun b => rfl, fun b => rfl, fun b => rfl, fun b => rfl, ?_, ?_, ?_, ?_⟩
  · intro n h
    simp [set_power_limit, h]
  · intro n h
    simp [set_prices, h]
  · intro n h
    simp [set_reduced_period, h]
  · intro n h
    simp [set_timer, h]

/-- Witness for C7: a failed confirmation of the expected variant is
returned as a success value, while wrong variants are rejected. -/
theorem set_operations_variant_mismatch_sole_failure_witness :
    set_power_limit (.powerLimitSet false) = .ok (.powerLimitSet false) ∧
    is_power_limit_set (.timerSet false) = false ∧
    set_power_limit (.timerSet false) =
      .error (.exception "Set power limit failed") ∧
    is_timer_set (.powerLimitSet false) = false ∧
    set_timer (.powerLimitSet false) = .error (.exception "Set timer failed") :=
  ⟨set_operations_variant_mismatch_sole_failure.1 false, rfl,
   set_operations_variant_mismatch_sole_failure.2.2.2.2.1 (.timerSet false) rfl,
   rfl,
   set_operations_variant_mismatch_sole_failure.2.2.2.2.2.2.2
     (.powerLimitSet false) rfl⟩

/-- Claim C8: constructing a `Scheduler` whose `repeat_on_weekdays` list
contains the integer 9 fails with the validation error, while each of the
integer values 0 through 6 succeeds and maps to the named weekday in the
order Sunday=0, Monday=1, ..., Saturday=6. -/
theorem scheduler_weekday_validation :
    Scheduler.init true true [9] 21 1 1 10 30 = .error (.valueError 9) ∧
    Scheduler.init true true [0] 21 1 1 10 30 =
      .ok ⟨true, true, [.SUNDAY], 21, 1, 1, 10, 30⟩ ∧
    Scheduler.init true true [1] 21 1 1 10 30 =
      .ok ⟨true, true, [.MONDAY], 21, 1, 1, 10, 30⟩ ∧
    Scheduler.init true true [2] 21 1 1 10 30 =
      .ok ⟨true, true, [.TUESDAY], 21, 1, 1, 10, 30⟩ ∧
    Scheduler.init true true [3] 21 1 1 10 30 =
      .ok ⟨true, true, [.WEDNESDAY], 21, 1, 1, 10, 30⟩ ∧
    Scheduler.init true true [4] 21 1 1 10 30 =
      .ok ⟨true, true, [.THURSDAY], 21, 1, 1, 10, 30⟩ ∧
    Scheduler.init true true [5] 21 1 1 10 30 =
      .ok ⟨true, true, [.FRIDAY], 21, 1, 1, 10, 30⟩ ∧
    Scheduler.init true true [6] 21 1 1 10 30 =
      .ok ⟨true, true, [.SATURDAY], 21, 1, 1, 10, 30⟩ ∧
    SchedulerWeekday.value .SUNDAY = 0 ∧
    SchedulerWeekday.value .MONDAY = 1 ∧
    SchedulerWeekday.value .TUESDAY = 2 ∧
    SchedulerWeekday.value .WEDNESDAY = 3 ∧
    SchedulerWeekday.value .THURSDAY = 4 ∧
    SchedulerWeekday.value .FRIDAY = 5 ∧
    SchedulerWeekday.value .SATURDAY = 6 :=
  ⟨rfl, rfl, rfl, rfl, rfl, rfl, rfl, rfl, rfl, rfl, rfl, rfl, rfl, rfl, rfl⟩

/-- Claim C9: `parse_boolean` (source `_parse_boolean`, the boolean
argument interpreter used by `set_reduced_period` and `set_timer`)
returns true iff the lowercased string form of its argument is exactly
"true", "on" or "1"; every other input — including "yes", "enabled" and
the empty string — yields false, and the comparison is
case-insensitive. -/
theorem parse_boolean_spec :
    (∀ s : String, parse_boolean s = true ↔
      (str_lower s = "true" ∨ str_lower s = "on" ∨ str_lower s = "1")) ∧
    parse_boolean "yes" = false ∧
    parse_boolean "enabled" = false ∧
    parse_boolean "" = false ∧
    parse_boolean "TRUE" = true ∧
    parse_boolean "On" = true ∧
    parse_boolean "oN" = true ∧
    parse_boolean "1" = true := by
  refine ⟨?_, by decide, by decide, by decide, by decide, by decide,
    by decide, by decide⟩
  intro s
  unfold parse_boolean
  by_cases h1 : str_lower s = "1"
  · simp [h1]
  · by_cases hon : str_lower s = "on"
    · simp [hon, h1]
    · by_cases htrue : str_lower s = "true"
      · simp [htrue, hon, h1]
      · simp [htrue, hon, h1]

/-- Claim C1 (evaluation at the failing input): with a first-page response
reporting `total_count = 8` and a well-formed scheduler page on every
page, the claim expects page requests 0, 1, 2 and an aggregated return;
`request_scheduler` instead issues only pages 0 and 1 and raises
`AttributeError` for the attribute `schedulers`, which
`SchedulerRequestedNotification` does not define (its attribute holding
the entries is named `scheduler_entries`). -/
theorem request_scheduler_count_eight_attribute_error :
    request_scheduler dev_eight =
      ([0, 1], .error (.attributeError "schedulers")) := rfl

/-- Claim C2 (evaluation at the failing input): with a well-formed
first-page response reporting `total_count = 4` carrying four entries and
a well-formed empty page-1 response, the claim expects the aggregate of
both pages' entries with `total_count = 4`; `request_scheduler` instead
raises `AttributeError` for the attribute `schedulers` when extending the
first page's entry list. -/
theorem request_scheduler_count_four_attribute_error :
    request_scheduler dev_four =
      ([0, 1], .error (.attributeError "schedulers")) := rfl
